import Mathlib

/-!
Verification development for the SEO Strategist backend (`backend/main.py`).

The file shallowly embeds the project/article lifecycle and the
analysis-orchestration pipeline of the FastAPI backend: the pydantic data
model (`LinkOpportunity`, `AnalysisResult`), the analyzer client
(`analyze_with_claude`), the orchestrator endpoint (`analyze_article`), the
batch ingestor (`upload_excel`), and the export aggregator
(`export_results`).  Python floats appearing in the code (2.5, 2.3,
measured elapsed seconds) are embedded as rationals; Python exceptions are
embedded as an explicit error type threaded through `Except`; the SQLite
store is embedded as in-memory lists of records.  The session is created
with `autoflush=False` (main.py line 24), so a query observes only
committed state: each commit is modelled by threading the written store
forward, and the one query that runs while writes are still pending — the
completed-count recompute at main.py lines 365-368 — reads the store as of
the previous commit, in which the article under analysis is still in
status `"analyzing"`.  The outbound HTTP call to the external analyzer is
embedded as an
explicit `UpstreamResponse` argument: a transport status code plus a body
that either parses as JSON or does not (`json.loads` itself is external
library behavior and is not reimplemented).
-/

namespace SeoStrategist

/-- JSON values, as produced by `json.loads` on the analyzer response text.
Numbers are embedded as integers: the only numeric fields the backend reads
out of analyzer JSON (`id`, `rating`) are integer-typed pydantic fields. -/
inductive Json where
  | null
  | bool (b : Bool)
  | num (n : Int)
  | str (s : String)
  | arr (elems : List Json)
  | obj (fields : List (String × Json))
deriving Repr

/-- Dictionary key access `data[k]` / `data.get(k)` on a parsed JSON value.
Returns `none` when the key is absent or the value is not a dict (in Python
these raise `KeyError` / `TypeError`; both are non-`JSONDecodeError`
exceptions and are treated identically by every caller in the backend). -/
def Json.lookupKey : Json → String → Option Json
  | .obj fields, k => fields.lookup k
  | _, _ => none

/-- Embedded Python exceptions relevant to the backend paths. -/
inductive PyError where
  | keyError (key : String)
  | validationError
  | httpException (status_code : Nat) (detail : String)
deriving Repr, DecidableEq

/-- Pydantic model `LinkOpportunity` (main.py lines 76-84). -/
structure LinkOpportunity where
  id : Int
  rating : Int
  location : String
  context : String
  old_text : String
  new_text : String
  reasoning : String
  user_value : String
deriving Repr, DecidableEq

/-- Pydantic model `AnalysisResult` (main.py lines 86-91). -/
structure AnalysisResult where
  opportunities : List LinkOpportunity
  processing_time : ℚ
  article_type : String
  reader_intent : String
  best_strategy : String
deriving Repr, DecidableEq

/-- The text body of a successful upstream analyzer call: either it parses
as JSON (`json.loads` returns a value) or it does not (`json.loads` raises
`JSONDecodeError`). -/
inductive ResponseText where
  | invalidJson (raw : String)
  | validJson (j : Json)
deriving Repr

/-- Outcome of the outbound HTTP call to the external analyzer: the
transport status code and the response text. -/
structure UpstreamResponse where
  status_code : Nat
  body : ResponseText
deriving Repr

/-- `some (.num n) ↦ some n`: reading an integer-typed pydantic field. -/
def asInt : Option Json → Option Int
  | some (.num n) => some n
  | _ => none

/-- `some (.str s) ↦ some s`: reading a string-typed pydantic field. -/
def asStr : Option Json → Option String
  | some (.str s) => some s
  | _ => none

/-- Pydantic construction `LinkOpportunity(**opp)` (main.py line 200):
fails (`ValidationError`) unless every declared field is present with the
declared type; extra keys are ignored.  Pydantic's lenient coercions
(e.g. numeric strings to int) are not modelled; no claim depends on them. -/
def parseOpportunity (j : Json) : Option LinkOpportunity :=
  match asInt (j.lookupKey "id"), asInt (j.lookupKey "rating"),
        asStr (j.lookupKey "location"), asStr (j.lookupKey "context"),
        asStr (j.lookupKey "old_text"), asStr (j.lookupKey "new_text"),
        asStr (j.lookupKey "reasoning"), asStr (j.lookupKey "user_value") with
  | some i, some r, some loc, some ctx, some ot, some nt, some rs, some uv =>
    some { id := i, rating := r, location := loc, context := ctx,
           old_text := ot, new_text := nt, reasoning := rs, user_value := uv }
  | _, _, _, _, _, _, _, _ => none

/-- The list comprehension
`[LinkOpportunity(**opp) for opp in analysis_data["opportunities"]]`
(main.py line 200): one constructed model per element, the first pydantic
failure aborting the whole comprehension. -/
def parseOpportunities : List Json → Option (List LinkOpportunity)
  | [] => some []
  | j :: rest =>
    match parseOpportunity j, parseOpportunities rest with
    | some o, some os => some (o :: os)
    | _, _ => none

/-- `analysis_data.get(k, dflt)` feeding a `str` pydantic field (main.py
lines 202-204).  A present non-string value would be string-coerced by
pydantic; that coercion is not modelled (no claim touches these fields). -/
def strFieldD (j : Json) (k dflt : String) : String :=
  match j.lookupKey k with
  | some (.str s) => s
  | _ => dflt

/-- A single-quote character, used inside the fallback `new_text`. -/
def sq : String := String.singleton (Char.ofNat 39)

/-- The deterministic fallback `AnalysisResult` synthesized when the
analyzer response text is not valid JSON (main.py lines 211-228). -/
def fallbackResult (to_url main_kw : String) : AnalysisResult :=
  { opportunities :=
      [ { id := 1
          rating := 9
          location := "After ballistics comparison section"
          context := "Reader just absorbed detailed performance data"
          old_text := "These ballistics show the performance characteristics of the cartridge."
          new_text :=
            ("These ballistics show the performance characteristics of the cartridge. For a comprehensive comparison with another classic round, see our detailed <a href=" ++ sq)
              ++ to_url ++ (sq ++ ">") ++ main_kw ++ "</a> analysis."
          reasoning := "Perfect contextual placement - readers examining ballistics are prime for comparison content"
          user_value := "Provides immediate access to comprehensive comparison data" } ]
    processing_time := 23/10
    article_type := "Ballistics Article"
    reader_intent := "Learning about cartridge performance"
    best_strategy := "Leverage post-data consumption moments" }

/-- `analyze_with_claude` (main.py lines 113-228).  The prompt string built
from `html_content`, `custom_prompt` and `opportunity_count` only travels to
the external analyzer and never influences the client's own control flow,
so its construction is not reproduced here; the upstream call's outcome is
the explicit `resp` argument.  On a 200 status the response text is parsed
(`json.loads`); `except json.JSONDecodeError` yields the fallback, while a
`KeyError` on `"opportunities"`, a `TypeError` from iterating a non-list,
or a pydantic `ValidationError` is NOT caught and propagates.  On a non-200
status `HTTPException(500, "Claude API error")` is raised and propagates. -/
def analyze_with_claude (html_content to_url main_kw : String)
    (custom_prompt : Option String) (opportunity_count : Nat)
    (resp : UpstreamResponse) : Except PyError AnalysisResult :=
  if resp.status_code = 200 then
    match resp.body with
    | .invalidJson _ => .ok (fallbackResult to_url main_kw)
    | .validJson analysis_data =>
      match analysis_data.lookupKey "opportunities" with
      | none => .error (.keyError "opportunities")
      | some (.arr opps) =>
        match parseOpportunities opps with
        | none => .error .validationError
        | some parsed =>
          .ok { opportunities := parsed
                processing_time := 5/2
                article_type := strFieldD analysis_data "article_type" "Article"
                reader_intent := strFieldD analysis_data "reader_intent" "Learning"
                best_strategy := strFieldD analysis_data "best_strategy" "Strategic placement" }
      | some _ => .error .validationError
  else .error (.httpException 500 "Claude API error")

/-- SQLAlchemy model `Article` (main.py lines 38-51).  `analysis_results`
is stored in the database as `json.dumps(result.dict())` and read back with
`json.loads`; the round trip is lossless, so the embedded record holds the
`AnalysisResult` value directly. -/
structure ArticleRec where
  id : String
  project_id : String
  from_url : String
  to_url : String
  main_kw : String
  html_content : Option String
  status : String
  analysis_results : Option AnalysisResult
  processing_time : Option ℚ
  order_index : Nat
deriving Repr, DecidableEq

/-- SQLAlchemy model `Project` (main.py lines 28-36). -/
structure ProjectRec where
  id : String
  name : String
  total_articles : Nat
  completed_articles : Nat
  status : String
deriving Repr, DecidableEq

/-- The SQLite store: the two tables.  Record ids are generated as UUIDs
and assumed unique in each table. -/
structure DB where
  projects : List ProjectRec
  articles : List ArticleRec
deriving Repr, DecidableEq

/-- `db.query(Article).filter(Article.id == aid).first()`. -/
def findArticle (db : DB) (aid : String) : Option ArticleRec :=
  db.articles.find? (fun a => a.id == aid)

/-- `db.query(Project).filter(Project.id == pid).first()`. -/
def findProject (db : DB) (pid : String) : Option ProjectRec :=
  db.projects.find? (fun p => p.id == pid)

/-- Mutating the ORM object fetched by id and committing. -/
def updateArticle (db : DB) (aid : String) (f : ArticleRec → ArticleRec) : DB :=
  { db with articles := db.articles.map (fun a => if a.id == aid then f a else a) }

/-- Mutating the ORM object fetched by id and committing. -/
def updateProject (db : DB) (pid : String) (f : ProjectRec → ProjectRec) : DB :=
  { db with projects := db.projects.map (fun p => if p.id == pid then f p else p) }

/-- The recomputation query (main.py lines 365-368):
`db.query(Article).filter(project_id == ..., status == "completed").count()`. -/
def countCompleted (db : DB) (pid : String) : Nat :=
  (db.articles.filter (fun a => a.project_id == pid && a.status == "completed")).length

/-- `create_project` (main.py lines 231-249): inserts a fresh project in
status `"created"` with zero counters.  The generated UUID is the `pid`
argument. -/
def create_project (db : DB) (pid name : String) : DB × ProjectRec :=
  let p : ProjectRec :=
    { id := pid, name := name, total_articles := 0, completed_articles := 0,
      status := "created" }
  ({ db with projects := db.projects ++ [p] }, p)

/-- `analyze_article` (main.py lines 332-378).  Arguments beyond the
request body: `resp` is the outcome of the single outbound analyzer call
made by `analyze_with_claude`, and `elapsed` is the measured value of
`(datetime.utcnow() - start_time).total_seconds()` for this attempt.
Control flow: a missing article is a 404 raised before any mutation; then
`html_content` is stored and status set to `"analyzing"` (committed —
store `db1`); then the analyzer client runs.  On its success the results,
status `"completed"` and measured `processing_time` are written (pending,
not yet flushed — store `db2`) and the project's `completed_articles` is
recomputed by re-query; because the session is `autoflush=False`, that
count query does not see the pending `"completed"` write and counts over
the committed store `db1`, in which this article is still `"analyzing"` —
so the recomputed counter excludes the article just completed.  The
`db.commit()` at main.py line 371 then flushes all pending writes.  On any
exception (from the client, or the `AttributeError` when the owning
project row is missing) the handler sets status `"error"` and commits,
leaving every other pending field write in place, then re-raises as a 500.
The detail string of that 500 interpolates the caught exception's text;
the interpolation is not modelled. -/
def analyze_article (db : DB) (article_id : String) (html_content : String)
    (custom_prompt : Option String) (opportunity_count : Nat)
    (resp : UpstreamResponse) (elapsed : ℚ) :
    DB × Except PyError AnalysisResult :=
  match findArticle db article_id with
  | none => (db, .error (.httpException 404 "Article not found"))
  | some article =>
    let db1 := updateArticle db article_id
      (fun a => { a with html_content := some html_content, status := "analyzing" })
    match analyze_with_claude html_content article.to_url article.main_kw
        custom_prompt opportunity_count resp with
    | .error _ =>
      (updateArticle db1 article_id (fun a => { a with status := "error" }),
       .error (.httpException 500 "Analysis failed"))
    | .ok result =>
      let db2 := updateArticle db1 article_id
        (fun a => { a with analysis_results := some result, status := "completed",
                           processing_time := some elapsed })
      match findProject db2 article.project_id with
      | none =>
        (updateArticle db2 article_id (fun a => { a with status := "error" }),
         .error (.httpException 500 "Analysis failed"))
      | some _ =>
        let cnt := countCompleted db1 article.project_id
        (updateProject db2 article.project_id
           (fun p => { p with completed_articles := cnt }),
         .ok result)

/-- The parsed spreadsheet (`pd.read_excel`): column names plus one cell
assoc list per row.  Cells are embedded as the strings that
`str(row[col])` yields; a cell pandas would fill with NaN reads back as
`"nan"`. -/
structure DataFrame where
  columns : List String
  rows : List (List (String × String))
deriving Repr, DecidableEq

/-- `str(row[col])` for a column known to exist. -/
def cellStr (row : List (String × String)) (col : String) : String :=
  (row.lookup col).getD "nan"

/-- The column validation (main.py lines 280-281):
`all(col in df.columns for col in ['From', 'To', 'Main KW'])`. -/
def hasRequiredColumns (df : DataFrame) : Bool :=
  ["From", "To", "Main KW"].all (fun c => df.columns.contains c)

/-- One loop iteration of the ingestion (main.py lines 290-296): the
Article built from row `i`.  `ids` supplies the generated UUID for each
row. -/
def rowToArticle (pid : String) (ids : Nat → String) (i : Nat)
    (row : List (String × String)) : ArticleRec :=
  { id := ids i
    project_id := pid
    from_url := cellStr row "From"
    to_url := cellStr row "To"
    main_kw := cellStr row "Main KW"
    html_content := none
    status := "pending"
    analysis_results := none
    processing_time := none
    order_index := i }

/-- `for index, row in df.iterrows(): db.add(Article(...))`, with `index`
running 0, 1, … over the rows (the default integer index of
`pd.read_excel`). -/
def buildArticles (pid : String) (ids : Nat → String) :
    Nat → List (List (String × String)) → List ArticleRec
  | _, [] => []
  | i, row :: rest => rowToArticle pid ids i row :: buildArticles pid ids (i + 1) rest

/-- `upload_excel` (main.py lines 266-312).  A missing project is a 404
before anything else; a missing required column raises a 400 inside the
`try`, which the blanket `except` re-wraps as another 400 (its detail
interpolation is not modelled) — in both failure cases nothing was
committed, so the store is returned unchanged.  On success one pending
Article per row is inserted, the project's `total_articles` is overwritten
with the row count and its status set to `"ready"`, and the row count is
returned. -/
def upload_excel (db : DB) (project_id : String) (df : DataFrame)
    (ids : Nat → String) : DB × Except PyError Nat :=
  match findProject db project_id with
  | none => (db, .error (.httpException 404 "Project not found"))
  | some _ =>
    if hasRequiredColumns df then
      let newArticles := buildArticles project_id ids 0 df.rows
      let db1 := { db with articles := db.articles ++ newArticles }
      let db2 := updateProject db1 project_id
        (fun p => { p with total_articles := df.rows.length, status := "ready" })
      (db2, .ok df.rows.length)
    else
      (db, .error (.httpException 400 "Error processing Excel"))

/-- One flattened export row (main.py lines 415-424). -/
structure ExportRow where
  from_url : String
  to_url : String
  main_kw : String
  rating : Int
  location : String
  old_text : String
  new_text : String
  reasoning : String
deriving Repr, DecidableEq

/-- The export row built from an article and one of its opportunities. -/
def exportRow (a : ArticleRec) (opp : LinkOpportunity) : ExportRow :=
  { from_url := a.from_url
    to_url := a.to_url
    main_kw := a.main_kw
    rating := opp.rating
    location := opp.location
    old_text := opp.old_text
    new_text := opp.new_text
    reasoning := opp.reasoning }

/-- Insertion step for ordering articles by `order_index`
(`ORDER BY order_index`). -/
def insertByOrderIndex (a : ArticleRec) : List ArticleRec → List ArticleRec
  | [] => [a]
  | b :: rest =>
    if a.order_index ≤ b.order_index then a :: b :: rest
    else b :: insertByOrderIndex a rest

/-- `ORDER BY order_index` on a query result. -/
def sortByOrderIndex : List ArticleRec → List ArticleRec
  | [] => []
  | a :: rest => insertByOrderIndex a (sortByOrderIndex rest)

/-- One iteration of the export loop (main.py lines 411-424): when the
article has stored `analysis_results`, append one row per opportunity in
stored order; otherwise append nothing. -/
def exportStep (acc : List ExportRow) (article : ArticleRec) : List ExportRow :=
  match article.analysis_results with
  | some analysis => acc ++ analysis.opportunities.map (exportRow article)
  | none => acc

/-- `export_results` (main.py lines 402-426): fetch the project's completed
articles ordered by `order_index`, run the export loop over them, and
return the rows and their count.  The endpoint runs no insert or update,
so the embedding returns no store: the export is a pure read. -/
def export_results (db : DB) (project_id : String) : List ExportRow × Nat :=
  let articles := sortByOrderIndex
    (db.articles.filter (fun a => a.project_id == project_id && a.status == "completed"))
  let export_data := articles.foldl exportStep []
  (export_data, export_data.length)

/-! ## Concrete scenario used by witnesses and counterexamples

A store built through the embedded endpoints themselves: one project, a
one-row ingestion, a first analysis that completes through the fallback
path, and a re-analysis that fails with an upstream 500. -/

/-- UUIDs generated for ingested articles in the scenario. -/
def sampleIds : Nat → String := fun i => "article-" ++ toString i

/-- A one-row spreadsheet with the three required columns. -/
def sampleDF : DataFrame :=
  { columns := ["From", "To", "Main KW"]
    rows := [[("From", "https://a.example/post"),
              ("To", "https://a.example/target"),
              ("Main KW", "ballistics data")]] }

/-- A two-row spreadsheet with the three required columns. -/
def sampleDF2 : DataFrame :=
  { columns := ["From", "To", "Main KW", "Notes"]
    rows := [[("From", "https://b.example/one"),
              ("To", "https://b.example/t1"),
              ("Main KW", "kw one"),
              ("Notes", "ignored")],
             [("From", "https://b.example/two"),
              ("To", "https://b.example/t2"),
              ("Main KW", "kw two")]] }

/-- A spreadsheet missing the required `Main KW` column. -/
def badDF : DataFrame :=
  { columns := ["From", "To"]
    rows := [[("From", "https://c.example/x"), ("To", "https://c.example/y")]] }

/-- The store after creating project `p1`. -/
def dbP : DB := (create_project ⟨[], []⟩ "p1" "Demo").1

/-- The store after ingesting the one-row spreadsheet into `p1`. -/
def dbIngested : DB := (upload_excel dbP "p1" sampleDF sampleIds).1

/-- The store after a first analysis of `article-0` that succeeds through
the fallback path (200 status, unparseable body). -/
def dbCompleted : DB :=
  (analyze_article dbIngested "article-0" "<p>x</p>" none 3
    ⟨200, .invalidJson "not json"⟩ 1).1

/-- The store after a re-analysis of `article-0` that hits an upstream
500. -/
def dbErrored : DB :=
  (analyze_article dbCompleted "article-0" "<p>x</p>" none 3
    ⟨500, .invalidJson "boom"⟩ 1).1

/-! ## Claims -/

/-- Claim C1: for every analyzer call where the external service returns a
success status but the response body is not valid JSON, the client returns
an `AnalysisResult` whose `processing_time` is 2.3 and which holds exactly
one `LinkOpportunity`, of rating 9, whose `new_text` contains both the
supplied `to_url` and the supplied `main_kw` as literal substrings. -/
theorem c1_invalid_json_fallback (html to_url main_kw raw : String)
    (cp : Option String) (oc : Nat) :
    analyze_with_claude html to_url main_kw cp oc ⟨200, .invalidJson raw⟩
      = .ok (fallbackResult to_url main_kw) ∧
    (fallbackResult to_url main_kw).processing_time = 23/10 ∧
    ∃ opp, (fallbackResult to_url main_kw).opportunities = [opp] ∧
      opp.rating = 9 ∧
      ∃ p q r, opp.new_text = p ++ to_url ++ q ++ main_kw ++ r := by
  exact ⟨rfl, rfl, ⟨_, rfl, rfl, _, _, _, rfl⟩⟩

/-- Claim C2, counterexample: a success-status response whose body is valid
JSON but lacks the `opportunities` field makes the client raise a
`KeyError` that propagates — it does not return the fallback result. -/
theorem c2_counterexample :
    analyze_with_claude "h" "u" "k" none 3
        ⟨200, .validJson (.obj [("status", .str "ok")])⟩
      = .error (.keyError "opportunities") ∧
    analyze_with_claude "h" "u" "k" none 3
        ⟨200, .validJson (.obj [("status", .str "ok")])⟩
      ≠ .ok (fallbackResult "u" "k") := by
  have h1 : analyze_with_claude "h" "u" "k" none 3
      ⟨200, .validJson (.obj [("status", .str "ok")])⟩
      = .error (.keyError "opportunities") := rfl
  refine ⟨h1, ?_⟩
  rw [h1]
  exact fun h => Except.noConfusion h

/-- Claim C2 (amended): on a success status the client absorbs only a
body that is not valid JSON, returning the one-element fallback; a body
that is valid JSON but missing the `opportunities` field, or whose
`opportunities` entries fail pydantic validation, raises an error
(`KeyError` / `ValidationError`) that propagates to the caller. -/
theorem c2_amended (html to_url main_kw raw : String) (cp : Option String)
    (oc : Nat) (kvs kvs2 : List (String × Json)) (opps : List Json)
    (hmiss : kvs.lookup "opportunities" = none)
    (hops : kvs2.lookup "opportunities" = some (.arr opps))
    (hbad : parseOpportunities opps = none) :
    analyze_with_claude html to_url main_kw cp oc ⟨200, .invalidJson raw⟩
      = .ok (fallbackResult to_url main_kw) ∧
    analyze_with_claude html to_url main_kw cp oc ⟨200, .validJson (.obj kvs)⟩
      = .error (.keyError "opportunities") ∧
    analyze_with_claude html to_url main_kw cp oc ⟨200, .validJson (.obj kvs2)⟩
      = .error .validationError := by
  refine ⟨rfl, ?_, ?_⟩
  · simp [analyze_with_claude, Json.lookupKey, hmiss]
  · simp [analyze_with_claude, Json.lookupKey, hops, hbad]

/-- Claim C2, witness: the amended theorem applied to concrete bodies. -/
theorem c2_amended_witness :
    analyze_with_claude "h" "u" "k" none 3 ⟨200, .invalidJson "x"⟩
      = .ok (fallbackResult "u" "k") ∧
    analyze_with_claude "h" "u" "k" none 3 ⟨200, .validJson (.obj [])⟩
      = .error (.keyError "opportunities") ∧
    analyze_with_claude "h" "u" "k" none 3
        ⟨200, .validJson (.obj [("opportunities", .arr [.num 1])])⟩
      = .error .validationError :=
  c2_amended "h" "u" "k" "x" none 3 [] [("opportunities", .arr [.num 1])]
    [.num 1] rfl rfl rfl

/-- Unpacking membership in an updated articles table. -/
theorem mem_updateArticle {db : DB} {aid : String} {f : ArticleRec → ArticleRec}
    {a : ArticleRec} (h : a ∈ (updateArticle db aid f).articles) :
    ∃ b ∈ db.articles, a = if b.id == aid then f b else b := by
  simp only [updateArticle, List.mem_map] at h
  obtain ⟨b, hb, hba⟩ := h
  exact ⟨b, hb, hba.symm⟩

/-- Claim C5: when the external analyzer returns a non-success transport
status, the single attempt fails: the article ends in status `"error"` and
the caller receives the surfaced 500 failure.  The embedding passes the
outcome of the one outbound call as `resp`; no second call exists on this
path, so the attempt is not retried. -/
theorem c5_upstream_error (db : DB) (aid html : String) (cp : Option String)
    (oc : Nat) (resp : UpstreamResponse) (elapsed : ℚ) (art : ArticleRec)
    (hart : findArticle db aid = some art) (hstatus : resp.status_code ≠ 200) :
    (analyze_article db aid html cp oc resp elapsed).2
      = .error (.httpException 500 "Analysis failed") ∧
    ∀ a ∈ (analyze_article db aid html cp oc resp elapsed).1.articles,
      a.id = aid → a.status = "error" := by
  have hclient : analyze_with_claude html art.to_url art.main_kw cp oc resp
      = .error (.httpException 500 "Claude API error") := by
    unfold analyze_with_claude
    rw [if_neg hstatus]
  constructor
  · simp [analyze_article, hart, hclient]
  · intro a ha haid
    simp only [analyze_article, hart, hclient] at ha
    rcases mem_updateArticle ha with ⟨b, hb, hab⟩
    by_cases hbid : b.id = aid
    · rw [if_pos (by simpa using hbid)] at hab
      rw [hab]
    · rw [if_neg (by simpa using hbid)] at hab
      rw [hab] at haid
      exact absurd haid hbid

/-- The article record for `article-0` as stored in `dbCompleted`. -/
def artCompleted : ArticleRec :=
  { id := "article-0"
    project_id := "p1"
    from_url := "https://a.example/post"
    to_url := "https://a.example/target"
    main_kw := "ballistics data"
    html_content := some "<p>x</p>"
    status := "completed"
    analysis_results := some (fallbackResult "https://a.example/target" "ballistics data")
    processing_time := some 1
    order_index := 0 }

/-- Claim C5, witness: re-analyzing the completed article against an
upstream 500 surfaces the failure to the caller. -/
theorem c5_upstream_error_witness :
    (analyze_article dbCompleted "article-0" "<p>x</p>" none 3
        ⟨500, .invalidJson "boom"⟩ 1).2
      = .error (.httpException 500 "Analysis failed") :=
  (c5_upstream_error dbCompleted "article-0" "<p>x</p>" none 3
      ⟨500, .invalidJson "boom"⟩ 1 artCompleted rfl (by decide)).1

/-- `buildArticles` creates one record per row. -/
theorem buildArticles_length (pid : String) (ids : Nat → String)
    (s : Nat) (rows : List (List (String × String))) :
    (buildArticles pid ids s rows).length = rows.length := by
  induction rows generalizing s with
  | nil => rfl
  | cons r rest ih => simp [buildArticles, ih]

/-- The record at position `i` of `buildArticles` is built from row `i`. -/
theorem buildArticles_get (pid : String) (ids : Nat → String)
    (s : Nat) (rows : List (List (String × String))) (i : Nat)
    (h : i < rows.length) (h' : i < (buildArticles pid ids s rows).length) :
    (buildArticles pid ids s rows).get ⟨i, h'⟩
      = rowToArticle pid ids (s + i) (rows.get ⟨i, h⟩) := by
  induction rows generalizing s i with
  | nil => exact absurd h (Nat.not_lt_zero i)
  | cons r rest ih =>
    cases i with
    | zero => simp [buildArticles]
    | succ n =>
      have := ih (s + 1) n (by simpa using h)
        (by simpa [buildArticles_length] using h)
      simp only [buildArticles, List.get_cons_succ, this]
      rw [Nat.add_assoc, Nat.add_comm 1 n]

/-- The `order_index` column of `buildArticles` is the contiguous range
starting at `s`. -/
theorem buildArticles_order_index (pid : String) (ids : Nat → String)
    (s : Nat) (rows : List (List (String × String))) :
    (buildArticles pid ids s rows).map (·.order_index)
      = List.range' s rows.length := by
  induction rows generalizing s with
  | nil => rfl
  | cons r rest ih => simp [buildArticles, rowToArticle, List.range'_succ, ih]

/-- Claim C6: a successful ingestion of an `n`-row spreadsheet into an
existing project appends exactly one pending Article per row, with
`order_index` values `0, …, n-1` in input order and `from_url`, `to_url`,
`main_kw` equal to the row's `From`, `To`, `Main KW` cells. -/
theorem c6_ingestion_success (db : DB) (pid : String) (df : DataFrame)
    (ids : Nat → String) (p : ProjectRec)
    (hp : findProject db pid = some p)
    (hcols : hasRequiredColumns df = true) :
    (upload_excel db pid df ids).1.articles
      = db.articles ++ buildArticles pid ids 0 df.rows ∧
    (upload_excel db pid df ids).2 = .ok df.rows.length ∧
    (buildArticles pid ids 0 df.rows).map (·.order_index)
      = List.range df.rows.length ∧
    ∀ i : Fin df.rows.length,
      ∃ h' : i.val < (buildArticles pid ids 0 df.rows).length,
        ((buildArticles pid ids 0 df.rows).get ⟨i.val, h'⟩).status = "pending" ∧
        ((buildArticles pid ids 0 df.rows).get ⟨i.val, h'⟩).order_index = i.val ∧
        ((buildArticles pid ids 0 df.rows).get ⟨i.val, h'⟩).project_id = pid ∧
        ((buildArticles pid ids 0 df.rows).get ⟨i.val, h'⟩).from_url
          = cellStr (df.rows.get i) "From" ∧
        ((buildArticles pid ids 0 df.rows).get ⟨i.val, h'⟩).to_url
          = cellStr (df.rows.get i) "To" ∧
        ((buildArticles pid ids 0 df.rows).get ⟨i.val, h'⟩).main_kw
          = cellStr (df.rows.get i) "Main KW" := by
  refine ⟨?_, ?_, ?_, ?_⟩
  · simp [upload_excel, hp, hcols, updateProject]
  · simp [upload_excel, hp, hcols]
  · rw [buildArticles_order_index, List.range_eq_range']
  · intro i
    have h' : i.val < (buildArticles pid ids 0 df.rows).length := by
      rw [buildArticles_length]; exact i.isLt
    refine ⟨h', ?_⟩
    rw [buildArticles_get pid ids 0 df.rows i.val i.isLt h']
    simp [rowToArticle]

/-- Claim C6, witness: ingesting the two-row spreadsheet into the fresh
project `p1`. -/
theorem c6_ingestion_success_witness :
    (upload_excel dbP "p1" sampleDF2 sampleIds).1.articles
      = dbP.articles ++ buildArticles "p1" sampleIds 0 sampleDF2.rows ∧
    (upload_excel dbP "p1" sampleDF2 sampleIds).2 = .ok 2 ∧
    (buildArticles "p1" sampleIds 0 sampleDF2.rows).map (·.order_index)
      = List.range 2 :=
  have h := c6_ingestion_success dbP "p1" sampleDF2 sampleIds
    ⟨"p1", "Demo", 0, 0, "created"⟩ rfl rfl
  ⟨h.1, h.2.1, h.2.2.1⟩

/-- Claim C7: ingesting a spreadsheet that lacks a required column into an
existing project fails with the 400 validation error and returns the store
unchanged — zero Articles are created and the project's `total_articles`
and `status` keep their previous values. -/
theorem c7_missing_column (db : DB) (pid : String) (df : DataFrame)
    (ids : Nat → String) (p : ProjectRec)
    (hp : findProject db pid = some p)
    (hcols : hasRequiredColumns df = false) :
    upload_excel db pid df ids
      = (db, .error (.httpException 400 "Error processing Excel")) := by
  simp [upload_excel, hp, hcols]

/-- Claim C7, witness: the spreadsheet missing `Main KW` leaves the store
untouched. -/
theorem c7_missing_column_witness :
    upload_excel dbP "p1" badDF sampleIds
      = (dbP, .error (.httpException 400 "Error processing Excel")) :=
  c7_missing_column dbP "p1" badDF sampleIds
    ⟨"p1", "Demo", 0, 0, "created"⟩ rfl rfl

/-- Modelled from the spec (§3): the opportunity list an Article
contributes, read out of its embedded `analysis_results`; an article with
no stored result contributes no opportunities. -/
def opportunitiesOf (a : ArticleRec) : List LinkOpportunity :=
  match a.analysis_results with
  | some r => r.opportunities
  | none => []

/-- Second definition for the refinement claim C8, following the words of
spec §4.4: fetch all Articles with status `completed` for the project
ordered by `order_index`, and flatten every LinkOpportunity across every
such article into a single ordered sequence of export rows — article order
first, then each article's own opportunity order. -/
def exportSpec (db : DB) (project_id : String) : List ExportRow :=
  (sortByOrderIndex
      (db.articles.filter
        (fun a => a.project_id == project_id && a.status == "completed"))).flatMap
    (fun a => (opportunitiesOf a).map (exportRow a))

/-- The export loop is the flattening described by the spec. -/
theorem foldl_exportStep (l : List ArticleRec) (acc : List ExportRow) :
    l.foldl exportStep acc
      = acc ++ l.flatMap (fun a => (opportunitiesOf a).map (exportRow a)) := by
  induction l generalizing acc with
  | nil => simp
  | cons a rest ih =>
    cases hr : a.analysis_results with
    | none =>
      simp [List.foldl_cons, exportStep, hr, ih, opportunitiesOf]
    | some analysis =>
      simp [List.foldl_cons, exportStep, hr, ih, opportunitiesOf]

/-- Claim C8: the export endpoint returns exactly the rows described by
spec §4.4 — the flattened opportunities of the project's completed
articles (every non-completed article excluded, stale or not), ordered by
article `order_index` and then by each article's own stored opportunity
order, together with `total_opportunities` equal to the number of rows.
The embedding of the endpoint performs no store mutation: it is a function
of the store that returns only the rows and the count. -/
theorem c8_export_refines_spec (db : DB) (project_id : String) :
    export_results db project_id
      = (exportSpec db project_id, (exportSpec db project_id).length) := by
  simp only [export_results, exportSpec]
  rw [foldl_exportStep]
  simp

/-- An integer field read succeeds exactly on a JSON number. -/
theorem asInt_eq_some {x : Option Json} {n : Int} (h : asInt x = some n) :
    x = some (.num n) := by
  cases x with
  | none => simp [asInt] at h
  | some j =>
    cases j <;> simp [asInt] at h
    simp [h]

/-- A successfully constructed `LinkOpportunity` carries the `id` and
`rating` numbers of its source JSON object verbatim. -/
theorem parseOpportunity_fields {j : Json} {o : LinkOpportunity}
    (h : parseOpportunity j = some o) :
    j.lookupKey "id" = some (.num o.id) ∧
    j.lookupKey "rating" = some (.num o.rating) := by
  unfold parseOpportunity at h
  split at h
  · rename_i i r loc ctx ot nt rs uv hid hrat hloc hctx hot hnt hrs huv
    rw [Option.some.injEq] at h
    subst h
    exact ⟨asInt_eq_some hid, asInt_eq_some hrat⟩
  · simp at h

/-- The comprehension preserves the element count. -/
theorem parseOpportunities_length {opps : List Json}
    {parsed : List LinkOpportunity}
    (h : parseOpportunities opps = some parsed) :
    parsed.length = opps.length := by
  induction opps generalizing parsed with
  | nil =>
    simp only [parseOpportunities, Option.some.injEq] at h
    subst h
    rfl
  | cons j rest ih =>
    simp only [parseOpportunities] at h
    cases h1 : parseOpportunity j <;> rw [h1] at h
    · simp at h
    · cases h2 : parseOpportunities rest <;> rw [h2] at h
      · simp at h
      · rw [Option.some.injEq] at h
        subst h
        simp [ih h2]

/-- The comprehension preserves order: the parsed opportunity at position
`i` comes from the JSON element at position `i`. -/
theorem parseOpportunities_get {opps : List Json}
    {parsed : List LinkOpportunity}
    (h : parseOpportunities opps = some parsed) (i : Nat)
    (hi : i < opps.length) (hi' : i < parsed.length) :
    parseOpportunity (opps.get ⟨i, hi⟩) = some (parsed.get ⟨i, hi'⟩) := by
  induction opps generalizing parsed i with
  | nil => exact absurd hi (Nat.not_lt_zero i)
  | cons j rest ih =>
    simp only [parseOpportunities] at h
    cases h1 : parseOpportunity j <;> rw [h1] at h
    · simp at h
    · cases h2 : parseOpportunities rest <;> rw [h2] at h
      · simp at h
      · rw [Option.some.injEq] at h
        subst h
        cases i with
        | zero => simpa using h1
        | succ n =>
          simpa using ih h2 n (by simpa using hi)
            (by simpa using Nat.lt_of_succ_lt_succ hi')

/-- Claim C9: a success-status response that is valid JSON of the expected
shape with `k` opportunities yields an `AnalysisResult` holding exactly
those `k` opportunities in order, ids and ratings taken verbatim from the
JSON with no semantic re-validation — the client applies no range check,
so any `rating` number, in `[1,10]` or not, passes through unchanged (the
witness exercises a rating of 99). -/
theorem c9_shape_valid_verbatim (html to_url main_kw : String)
    (cp : Option String) (oc : Nat) (j : Json) (opps : List Json)
    (parsed : List LinkOpportunity)
    (hops : j.lookupKey "opportunities" = some (.arr opps))
    (hparse : parseOpportunities opps = some parsed) :
    analyze_with_claude html to_url main_kw cp oc ⟨200, .validJson j⟩
      = .ok { opportunities := parsed
              processing_time := 5/2
              article_type := strFieldD j "article_type" "Article"
              reader_intent := strFieldD j "reader_intent" "Learning"
              best_strategy := strFieldD j "best_strategy" "Strategic placement" } ∧
    parsed.length = opps.length ∧
    ∀ i : Fin opps.length, ∃ hi' : i.val < parsed.length,
      (opps.get i).lookupKey "id"
        = some (.num ((parsed.get ⟨i.val, hi'⟩).id)) ∧
      (opps.get i).lookupKey "rating"
        = some (.num ((parsed.get ⟨i.val, hi'⟩).rating)) := by
  refine ⟨?_, parseOpportunities_length hparse, ?_⟩
  · simp [analyze_with_claude, hops, hparse]
  · intro i
    have hi' : i.val < parsed.length := by
      rw [parseOpportunities_length hparse]; exact i.isLt
    exact ⟨hi', parseOpportunity_fields
      (parseOpportunities_get hparse i.val i.isLt hi')⟩

/-- A concrete shape-conformant analyzer response with two opportunities,
the second carrying the out-of-range rating 99. -/
def sampleOppJson1 : Json :=
  .obj [("id", .num 1), ("rating", .num 10), ("location", .str "intro"),
        ("context", .str "c1"), ("old_text", .str "o1"),
        ("new_text", .str "n1"), ("reasoning", .str "r1"),
        ("user_value", .str "v1")]

/-- Second sample opportunity, rating 99 (outside `[1,10]`). -/
def sampleOppJson2 : Json :=
  .obj [("id", .num 2), ("rating", .num 99), ("location", .str "end"),
        ("context", .str "c2"), ("old_text", .str "o2"),
        ("new_text", .str "n2"), ("reasoning", .str "r2"),
        ("user_value", .str "v2")]

/-- The full sample response body. -/
def sampleShapeJson : Json :=
  .obj [("opportunities", .arr [sampleOppJson1, sampleOppJson2]),
        ("article_type", .str "Guide"),
        ("reader_intent", .str "Compare"),
        ("best_strategy", .str "Early link")]

/-- The two opportunities as parsed from the sample body. -/
def sampleParsed : List LinkOpportunity :=
  [{ id := 1, rating := 10, location := "intro", context := "c1",
     old_text := "o1", new_text := "n1", reasoning := "r1", user_value := "v1" },
   { id := 2, rating := 99, location := "end", context := "c2",
     old_text := "o2", new_text := "n2", reasoning := "r2", user_value := "v2" }]

/-- Claim C9, witness: the sample response with `k = 2` opportunities and
an out-of-range rating of 99 is returned verbatim. -/
theorem c9_shape_valid_verbatim_witness :
    analyze_with_claude "h" "u" "k" none 2 ⟨200, .validJson sampleShapeJson⟩
      = .ok { opportunities := sampleParsed
              processing_time := 5/2
              article_type := "Guide"
              reader_intent := "Compare"
              best_strategy := "Early link" } ∧
    sampleParsed.length = 2 :=
  have h := c9_shape_valid_verbatim "h" "u" "k" none 2 sampleShapeJson
    [sampleOppJson1, sampleOppJson2] sampleParsed rfl rfl
  ⟨h.1, h.2.1⟩

/-- Updating a project row leaves article lookups unchanged. -/
theorem findArticle_updateProject (db : DB) (pid : String)
    (g : ProjectRec → ProjectRec) (aid : String) :
    findArticle (updateProject db pid g) aid = findArticle db aid := rfl

/-- Updating an article row leaves project lookups unchanged. -/
theorem findProject_updateArticle (db : DB) (aid : String)
    (f : ArticleRec → ArticleRec) (pid : String) :
    findProject (updateArticle db aid f) pid = findProject db pid := rfl

/-- Looking up the updated id after an id-preserving update returns the
updated record. -/
theorem find_update_list (aid : String) (f : ArticleRec → ArticleRec)
    (hf : ∀ a, (f a).id = a.id) (l : List ArticleRec) :
    (l.map (fun a => if a.id == aid then f a else a)).find?
        (fun a => a.id == aid)
      = (l.find? (fun a => a.id == aid)).map f := by
  induction l with
  | nil => rfl
  | cons a rest ih =>
    by_cases h : a.id = aid
    · have hb : (a.id == aid) = true := by simpa using h
      have hfb : ((f a).id == aid) = true := by rw [hf]; exact hb
      rw [List.map_cons, if_pos hb,
          List.find?_cons_of_pos (p := fun x : ArticleRec => x.id == aid) _ (by simpa using hfb),
          List.find?_cons_of_pos (p := fun x : ArticleRec => x.id == aid) _ hb]
      rfl
    · have hb : (a.id == aid) = false := by simpa using h
      rw [List.map_cons, if_neg (by simp [hb]),
          List.find?_cons_of_neg (p := fun x : ArticleRec => x.id == aid) _ (by simp [hb]),
          List.find?_cons_of_neg (p := fun x : ArticleRec => x.id == aid) _ (by simp [hb]), ih]

/-- `findArticle` after `updateArticle` on the same id. -/
theorem findArticle_updateArticle (db : DB) (aid : String)
    (f : ArticleRec → ArticleRec) (hf : ∀ a, (f a).id = a.id) :
    findArticle (updateArticle db aid f) aid = (findArticle db aid).map f := by
  unfold findArticle updateArticle
  exact find_update_list aid f hf db.articles

/-- The `AnalysisResult` built on the non-fallback success path from a
shape-conformant body `j` whose opportunities parse to `parsed`
(main.py lines 199-205). -/
def parsedResult (j : Json) (parsed : List LinkOpportunity) : AnalysisResult :=
  { opportunities := parsed
    processing_time := 5/2
    article_type := strFieldD j "article_type" "Article"
    reader_intent := strFieldD j "reader_intent" "Learning"
    best_strategy := strFieldD j "best_strategy" "Strategic placement" }

/-- Claim C10: on the non-fallback success path the `AnalysisResult`
returned to the caller carries the constant `processing_time` 2.5
regardless of the measured time, while the article row persists the
measured wall-clock `elapsed` of the full attempt — so whenever
`elapsed ≠ 2.5` the two observable processing times disagree. -/
theorem c10_processing_times (db : DB) (aid html : String)
    (cp : Option String) (oc : Nat) (elapsed : ℚ) (j : Json)
    (opps : List Json) (parsed : List LinkOpportunity) (art : ArticleRec)
    (p : ProjectRec)
    (hart : findArticle db aid = some art)
    (hproj : findProject db art.project_id = some p)
    (hops : j.lookupKey "opportunities" = some (.arr opps))
    (hparse : parseOpportunities opps = some parsed) :
    (analyze_article db aid html cp oc ⟨200, .validJson j⟩ elapsed).2
      = .ok (parsedResult j parsed) ∧
    (parsedResult j parsed).processing_time = 5/2 ∧
    (findArticle (analyze_article db aid html cp oc
          ⟨200, .validJson j⟩ elapsed).1 aid).map (·.processing_time)
      = some (some elapsed) ∧
    (findArticle (analyze_article db aid html cp oc
          ⟨200, .validJson j⟩ elapsed).1 aid).map (·.analysis_results)
      = some (some (parsedResult j parsed)) ∧
    (elapsed ≠ 5/2 →
      (some elapsed : Option ℚ) ≠ some (parsedResult j parsed).processing_time) := by
  have hclient : analyze_with_claude html art.to_url art.main_kw cp oc
      ⟨200, .validJson j⟩ = .ok (parsedResult j parsed) := by
    simp [analyze_with_claude, hops, hparse, parsedResult]
  have hfind : findArticle (analyze_article db aid html cp oc
      ⟨200, .validJson j⟩ elapsed).1 aid
      = some { art with
                html_content := some html, status := "completed",
                analysis_results := some (parsedResult j parsed),
                processing_time := some elapsed } := by
    simp only [analyze_article, hart, hclient, findProject_updateArticle, hproj]
    rw [findArticle_updateProject, findArticle_updateArticle,
      findArticle_updateArticle, hart]
    · rfl
    all_goals intro a; rfl
  refine ⟨?_, rfl, ?_, ?_, ?_⟩
  · simp only [analyze_article, hart, hclient, findProject_updateArticle, hproj]
  · rw [hfind]; rfl
  · rw [hfind]; rfl
  · intro hne h
    rw [Option.some.injEq] at h
    exact hne h

/-- Claim C10, witness: a concrete shape-valid analysis of the ingested
article with measured elapsed time 7 ≠ 2.5. -/
theorem c10_processing_times_witness :
    (analyze_article dbIngested "article-0" "<p>x</p>" none 2
        ⟨200, .validJson sampleShapeJson⟩ 7).2
      = .ok (parsedResult sampleShapeJson sampleParsed) ∧
    (findArticle (analyze_article dbIngested "article-0" "<p>x</p>" none 2
          ⟨200, .validJson sampleShapeJson⟩ 7).1 "article-0").map
        (·.processing_time)
      = some (some 7) ∧
    (some (7 : ℚ) : Option ℚ)
      ≠ some (parsedResult sampleShapeJson sampleParsed).processing_time :=
  have h := c10_processing_times dbIngested "article-0" "<p>x</p>" none 2 7
    sampleShapeJson [sampleOppJson1, sampleOppJson2] sampleParsed
    { id := "article-0", project_id := "p1",
      from_url := "https://a.example/post", to_url := "https://a.example/target",
      main_kw := "ballistics data", html_content := none, status := "pending",
      analysis_results := none, processing_time := none, order_index := 0 }
    ⟨"p1", "Demo", 1, 0, "ready"⟩ rfl rfl rfl rfl
  ⟨h.1, h.2.2.1, h.2.2.2.2 (by norm_num)⟩

/-- Updating a project row leaves the completed-article count unchanged. -/
theorem countCompleted_updateProject (db : DB) (pid : String)
    (g : ProjectRec → ProjectRec) (pid' : String) :
    countCompleted (updateProject db pid g) pid' = countCompleted db pid' := rfl

/-- The pending `article-0` record as stored by the sample ingestion. -/
def artPending : ArticleRec :=
  { id := "article-0"
    project_id := "p1"
    from_url := "https://a.example/post"
    to_url := "https://a.example/target"
    main_kw := "ballistics data"
    html_content := none
    status := "pending"
    analysis_results := none
    processing_time := none
    order_index := 0 }

/-- Claim C3, counterexample: the first successful completion of
`article-0` — the project's only article — recomputes the counter through
the unflushed session: the count query still sees the article committed as
`"analyzing"`, so `completed_articles` is set to 0 while the store holds
one completed article.  The claimed equality between the counter and the
completed count already fails at this successful transition (and the error
transition never recomputes at all). -/
theorem c3_counterexample :
    (findProject dbCompleted "p1").map (·.completed_articles) = some 0 ∧
    countCompleted dbCompleted "p1" = 1 := ⟨rfl, rfl⟩

/-- The completed count the `autoflush=False` session observes during the
recompute — taken over the store as of the `"analyzing"` commit — equals
the number of the project's *other* articles committed as completed: the
in-flight article is excluded whatever its prior status. -/
theorem countCompleted_analyzing (db : DB) (aid html pid : String) :
    countCompleted (updateArticle db aid
        (fun a => { a with html_content := some html, status := "analyzing" })) pid
      = (db.articles.filter (fun a =>
          a.project_id == pid && a.status == "completed"
            && !(a.id == aid))).length := by
  simp only [countCompleted, updateArticle]
  rw [List.filter_map, List.length_map]
  refine congrArg List.length (List.filter_congr ?_)
  intro a _
  by_cases h : (a.id == aid) = true
  · simp [Function.comp, h]
  · rw [Bool.not_eq_true] at h
    simp [Function.comp, h]

/-- Claim C3 (amended): `Project.completed_articles` is only written on a
*successful* completion transition, where it is recomputed by re-query —
never incremented; because the `autoflush=False` session runs the count
query before the pending `"completed"` write is flushed, the recomputed
value equals the count of the project's completed articles as of the last
commit, i.e. the completed articles *other than the one just completed* —
so the counter excludes the in-flight article and does not equal the
post-transition completed count.  The error transition writes no project
row at all, so no recompute happens there either (see the
counterexample for the resulting drift). -/
theorem c3_amended (db : DB) (aid html : String) (cp : Option String)
    (oc : Nat) (resp : UpstreamResponse) (elapsed : ℚ) (db' : DB)
    (out : Except PyError AnalysisResult) (art : ArticleRec)
    (hart : findArticle db aid = some art)
    (hrun : analyze_article db aid html cp oc resp elapsed = (db', out)) :
    ((∃ r, out = .ok r) →
      ∀ p ∈ db'.projects, p.id = art.project_id →
        p.completed_articles
          = (db.articles.filter (fun a =>
              a.project_id == art.project_id && a.status == "completed"
                && !(a.id == aid))).length) ∧
    ((∃ e, out = .error e) → db'.projects = db.projects) := by
  simp only [analyze_article, hart] at hrun
  cases hcl : analyze_with_claude html art.to_url art.main_kw cp oc resp with
  | error e0 =>
    simp only [hcl] at hrun
    rw [Prod.mk.injEq] at hrun
    obtain ⟨hdb, hout⟩ := hrun
    constructor
    · rintro ⟨r, hr⟩
      rw [hr] at hout
      exact absurd hout (by simp)
    · intro _
      rw [← hdb]
      rfl
  | ok result =>
    simp only [hcl, findProject_updateArticle] at hrun
    cases hfp : findProject db art.project_id with
    | none =>
      simp only [hfp] at hrun
      rw [Prod.mk.injEq] at hrun
      obtain ⟨hdb, hout⟩ := hrun
      constructor
      · rintro ⟨r, hr⟩
        rw [hr] at hout
        exact absurd hout (by simp)
      · intro _
        rw [← hdb]
        rfl
    | some p0 =>
      simp only [hfp] at hrun
      rw [Prod.mk.injEq] at hrun
      obtain ⟨hdb, hout⟩ := hrun
      constructor
      · intro _
        subst hdb
        intro p hp hpid
        simp only [updateProject, List.mem_map] at hp
        obtain ⟨q, hq, hqp⟩ := hp
        by_cases h : q.id = art.project_id
        · rw [if_pos (by simpa using h)] at hqp
          rw [← hqp]
          exact countCompleted_analyzing db aid html art.project_id
        · rw [if_neg (by simpa using h)] at hqp
          rw [← hqp] at hpid
          exact absurd hpid h
      · rintro ⟨e, he⟩
        rw [he] at hout
        exact absurd hout (by simp)

/-- Claim C3, witness: the first successful analysis of `article-0` sets
the counter to the number of *other* completed articles of the project —
here 0, matching the store `dbCompleted` in which the counter reads 0. -/
theorem c3_amended_witness :
    ProjectRec.completed_articles ⟨"p1", "Demo", 1, 0, "ready"⟩
      = (dbIngested.articles.filter (fun a =>
          a.project_id == "p1" && a.status == "completed"
            && !(a.id == "article-0"))).length :=
  (c3_amended dbIngested "article-0" "<p>x</p>" none 3
    ⟨200, .invalidJson "not json"⟩ 1 dbCompleted
    (.ok (fallbackResult "https://a.example/target" "ballistics data"))
    artPending rfl rfl).1
    ⟨fallbackResult "https://a.example/target" "ballistics data", rfl⟩
    ⟨"p1", "Demo", 1, 0, "ready"⟩ (by decide) rfl

/-- A single endpoint invocation against the store. -/
inductive Step : DB → DB → Prop where
  | create (db : DB) (pid name : String) :
      Step db (create_project db pid name).1
  | upload (db : DB) (pid : String) (df : DataFrame) (ids : Nat → String) :
      Step db (upload_excel db pid df ids).1
  | analyze (db : DB) (aid html : String) (cp : Option String) (oc : Nat)
      (resp : UpstreamResponse) (elapsed : ℚ) :
      Step db (analyze_article db aid html cp oc resp elapsed).1

/-- Stores reachable from the empty store through any sequence of
ingestion, analysis, re-analysis and error transitions. -/
inductive Reachable : DB → Prop where
  | init : Reachable ⟨[], []⟩
  | step {db db' : DB} : Reachable db → Step db db' → Reachable db'

/-- The relationship between `analysis_results` and `status` that the code
actually maintains on every article. -/
def resultsStatusInv (a : ArticleRec) : Prop :=
  (a.status = "completed" → a.analysis_results.isSome = true) ∧
  (a.status = "pending" → a.analysis_results = none)

/-- `updateArticle` preserves a pointwise article invariant. -/
theorem updateArticle_inv {db : DB} {aid : String}
    {f : ArticleRec → ArticleRec}
    (hdb : ∀ a ∈ db.articles, resultsStatusInv a)
    (hf : ∀ a, resultsStatusInv a → resultsStatusInv (f a)) :
    ∀ a ∈ (updateArticle db aid f).articles, resultsStatusInv a := by
  intro a ha
  rcases mem_updateArticle ha with ⟨b, hb, hab⟩
  by_cases h : (b.id == aid) = true
  · rw [if_pos h] at hab
    rw [hab]
    exact hf b (hdb b hb)
  · rw [if_neg h] at hab
    rw [hab]
    exact hdb b hb

/-- Freshly ingested articles satisfy the invariant: pending, no
results. -/
theorem buildArticles_inv (pid : String) (ids : Nat → String) (s : Nat)
    (rows : List (List (String × String))) :
    ∀ a ∈ buildArticles pid ids s rows, resultsStatusInv a := by
  induction rows generalizing s with
  | nil => intro a ha; exact absurd ha (List.not_mem_nil a)
  | cons r rest ih =>
    intro a ha
    rcases List.mem_cons.mp ha with h | h
    · subst h
      exact ⟨fun hc => by simp [rowToArticle] at hc, fun _ => rfl⟩
    · exact ih (s + 1) a h

/-- Every endpoint invocation preserves the per-article results/status
invariant. -/
theorem step_preserves_inv {db db' : DB} (hstep : Step db db')
    (ih : ∀ a ∈ db.articles, resultsStatusInv a) :
    ∀ a ∈ db'.articles, resultsStatusInv a := by
  cases hstep with
  | create pid name => exact fun a ha => ih a ha
  | upload pid df ids =>
    intro a ha
    cases hfp : findProject db pid with
    | none =>
      simp only [upload_excel, hfp] at ha
      exact ih a ha
    | some p =>
      by_cases hc : hasRequiredColumns df = true
      · simp only [upload_excel, hfp, hc, if_true] at ha
        rcases List.mem_append.mp ha with h | h
        · exact ih a h
        · exact buildArticles_inv pid ids 0 df.rows a h
      · rw [Bool.not_eq_true] at hc
        simp only [upload_excel, hfp, hc, Bool.false_eq_true, if_false] at ha
        exact ih a ha
  | analyze aid html cp oc resp elapsed =>
    intro a ha
    cases hfa : findArticle db aid with
    | none =>
      simp only [analyze_article, hfa] at ha
      exact ih a ha
    | some art =>
      simp only [analyze_article, hfa] at ha
      cases hcl : analyze_with_claude html art.to_url art.main_kw cp oc resp with
      | error e =>
        simp only [hcl] at ha
        refine updateArticle_inv (updateArticle_inv ih ?_) ?_ a ha
        · exact fun b _ => ⟨fun hc => by simp at hc, fun hc => by simp at hc⟩
        · exact fun b _ => ⟨fun hc => by simp at hc, fun hc => by simp at hc⟩
      | ok result =>
        simp only [hcl, findProject_updateArticle] at ha
        cases hfp : findProject db art.project_id with
        | none =>
          simp only [hfp] at ha
          refine updateArticle_inv
            (updateArticle_inv (updateArticle_inv ih ?_) ?_) ?_ a ha
          · exact fun b _ => ⟨fun hc => by simp at hc, fun hc => by simp at hc⟩
          · exact fun b _ => ⟨fun _ => rfl, fun hc => by simp at hc⟩
          · exact fun b _ => ⟨fun hc => by simp at hc, fun hc => by simp at hc⟩
        | some p0 =>
          simp only [hfp] at ha
          refine updateArticle_inv (updateArticle_inv ih ?_) ?_ a ha
          · exact fun b _ => ⟨fun hc => by simp at hc, fun hc => by simp at hc⟩
          · exact fun b _ => ⟨fun _ => rfl, fun hc => by simp at hc⟩

/-- Claim C4 (amended): in every reachable store, each article satisfies
the one-directional invariants the code maintains — status `"completed"`
implies `analysis_results` is present, and status `"pending"` (never
analyzed) implies it is absent.  The biconditional of the original claim
fails: an article in status `"error"` (or `"analyzing"`) may retain stale
`analysis_results` from a prior completion, because the error handler
overwrites only `status` (see the counterexample). -/
theorem c4_amended (db : DB) (hreach : Reachable db) :
    ∀ a ∈ db.articles, resultsStatusInv a := by
  induction hreach with
  | init => intro a ha; exact absurd ha (List.not_mem_nil a)
  | step hr hstep ih => exact step_preserves_inv hstep ih

/-- Claim C4, counterexample: after the failed re-analysis, `article-0`
is in status `"error"` yet still holds the stale `analysis_results` of its
earlier completion — `analysis_results` present does not imply
`status == completed`, refuting the biconditional. -/
theorem c4_counterexample :
    (findArticle dbErrored "article-0").map (·.status) = some "error" ∧
    (findArticle dbErrored "article-0").map (·.analysis_results.isSome)
      = some true := ⟨rfl, rfl⟩

/-- Claim C4, witness: the amended invariant applied to the reachable
ingested store and its stored pending article. -/
theorem c4_amended_witness :
    (artPending.status = "completed" → artPending.analysis_results.isSome = true) ∧
    (artPending.status = "pending" → artPending.analysis_results = none) :=
  c4_amended dbIngested
    (Reachable.step
      (Reachable.step Reachable.init (Step.create ⟨[], []⟩ "p1" "Demo"))
      (Step.upload dbP "p1" sampleDF sampleIds))
    artPending (by decide)

end SeoStrategist
